import Mathlib

/-!
Verification of the Iraq Air Quality repository's district/alert pipeline
front end (src/unnamed/part_000, src/unnamed/part_001, src/js/main.js) and
Telegram bot (src/iraq-aqi-bot/bot.py.backup), shallowly embedded in Lean.
JavaScript/Python numbers are modelled as rationals; JS `null`/`undefined`
and Python `None` as `Option.none`; the floating-point haversine distance is
treated as an opaque distance function parameter.
-/

namespace IraqAQ

/-- The six alert-level tokens of the published snapshot, as consumed by
`getAlertColor` (src/unnamed/part_000, lines 166-176), `translateAQILevel`
and the bot's `ALERT_TEXT` table. Listed in ascending severity. -/
inductive AlertLevel where
  | good
  | moderate
  | unhealthy_for_sensitive_groups
  | unhealthy
  | very_unhealthy
  | hazardous
deriving DecidableEq, Repr

/-- The six documented level tokens exactly as they appear as strings in the
source (cases of `getAlertColor` in src/unnamed/part_000 lines 166-176 and
keys of the bot's `ALERT_TEXT`), in ascending severity. -/
def documentedLevels : List String :=
  ["good", "moderate", "unhealthy_for_sensitive_groups",
   "unhealthy", "very_unhealthy", "hazardous"]

/-- Dust-storm test of src/unnamed/part_000 lines 64-66:
`return (pm10 >= 300 || aqi >= 200)`. Inputs are plain numbers. -/
def isDustStormCondition (pm10 aqi : ℚ) : Bool :=
  decide (300 ≤ pm10) || decide (200 ≤ aqi)

/-- Dust-storm test of the bot (src/iraq-aqi-bot/bot.py.backup lines 88-89):
`return pm10 >= 300 or aqi >= 200`. -/
def is_dust_storm (pm10 aqi : ℚ) : Bool :=
  decide (300 ≤ pm10) || decide (200 ≤ aqi)

/-- JS coercion `x || 0`: `null`/`undefined` and the falsy number `0` become
`0`; any other number is kept. On `Option ℚ` this is `Option.getD 0`. -/
def orZero (o : Option ℚ) : ℚ := o.getD 0

/-- Dust-storm test of src/js/main.js lines 103-107, which first coerces its
arguments: `pm10 = pm10 || 0; aqi = aqi || 0; return (pm10 >= 300 || aqi >= 200)`.
Absent inputs are modelled as `none`. -/
def isDustStormConditionMain (pm10 aqi : Option ℚ) : Bool :=
  isDustStormCondition (orZero pm10) (orZero aqi)

/-- Night test of src/js/main.js lines 36-47: add 3 hours (Iraq, UTC+3) to the
timestamp and test `h >= 19 || h < 6` on the hour of day. The timestamp is
modelled as whole hours since an epoch midnight. -/
def isNightTimeIraq (t : ℤ) : Bool :=
  let h := (t + 3) % 24
  decide (19 ≤ h) || decide (h < 6)

/-- Health-icon table of src/js/main.js lines 110-170. The function coerces
absent `aqi`/`pm10` to `0`, computes the night flag only when a timestamp is
present, prepends a dust-storm icon, then selects icons by AQI band. Icons
are modelled as (icon, label) string pairs, exactly as pushed by the source. -/
def getHealthIconsMain (aqi pm10 : Option ℚ) (timestamp : Option ℤ) :
    List (String × String) :=
  let a := orZero aqi
  let p := orZero pm10
  let night := match timestamp with
    | some t => isNightTimeIraq t
    | none => false
  let dust := isDustStormConditionMain (some p) (some a)
  let dustIcons :=
    if dust then
      [("🌪️", "Possible dust storm conditions – severe dust exposure")]
    else []
  let bandIcons :=
    if a ≤ 50 then
      [("🚴", if night then "Night-time: light outdoor activity is acceptable"
              else "Safe for outdoor activity")]
    else if a ≤ 100 then
      [("🚴", "Outdoor activity generally safe"),
       ("👶", "Sensitive people should be cautious")]
    else if a ≤ 150 then
      [("👶", "Sensitive groups: children, elderly, respiratory patients should limit outdoor activities"),
       ("😷", "Consider wearing mask if sensitive"),
       ("🏠", "Keep windows closed")]
    else if a ≤ 200 then
      [("😷", "Wear a mask outdoors"),
       ("🏠", "Stay indoors if possible"),
       ("🚫", "Avoid outdoor activity"),
       ("👶", "Sensitive groups: DO NOT go out")]
    else if a ≤ 300 then
      [("😷", "Wear N95 mask if must go out"),
       ("🏠", "Stay indoors - health emergency"),
       ("🚫", "No outdoor activities"),
       ("👶", "Everyone at risk")]
    else
      [("😷", "N95 mask mandatory if going out"),
       ("🏠", "Stay indoors - health emergency"),
       ("🚫", "Do NOT go out unless emergency"),
       ("👶", "Sensitive groups: extreme danger"),
       ("💨", "Use air purifier indoors")]
  dustIcons ++ bandIcons

/-- PM10 classifier of src/unnamed/part_001 lines 201-207:
nested `if pm10 <= …` thresholds returning one of five display labels. -/
def getAQILevel (pm10 : ℚ) : String :=
  if pm10 ≤ 50 then "Good"
  else if pm10 ≤ 100 then "Moderate"
  else if pm10 ≤ 150 then "Unhealthy"
  else if pm10 ≤ 300 then "Very Unhealthy"
  else "Hazardous"

/-- PM10 colour scale of src/unnamed/part_001 lines 185-191. -/
def getColor (pm10 : ℚ) : String :=
  if pm10 ≤ 50 then "#2ecc71"
  else if pm10 ≤ 100 then "#f1c40f"
  else if pm10 ≤ 150 then "#e67e22"
  else if pm10 ≤ 300 then "#e74c3c"
  else "#8e44ad"

/-- Level-to-colour switch of src/unnamed/part_000 lines 166-176, on the raw
level string, with the source's default colour. -/
def getAlertColor (level : String) : String :=
  if level = "good" then "#22c55e"
  else if level = "moderate" then "#eab308"
  else if level = "unhealthy_for_sensitive_groups" then "#b675bd"
  else if level = "unhealthy" then "#ee60db"
  else if level = "very_unhealthy" then "#ed1515"
  else if level = "hazardous" then "#7c2d12"
  else "#334155"

/-- Severity rank of the five labels produced by `getAQILevel`, in the order
they appear in its ascending threshold table. -/
def sevLabel (s : String) : ℕ :=
  if s = "Good" then 0
  else if s = "Moderate" then 1
  else if s = "Unhealthy" then 2
  else if s = "Very Unhealthy" then 3
  else if s = "Hazardous" then 4
  else 0

/-- Severity rank of the five colours produced by `getColor`, in the order
they appear in its ascending threshold table. -/
def sevColor (s : String) : ℕ :=
  if s = "#2ecc71" then 0
  else if s = "#f1c40f" then 1
  else if s = "#e67e22" then 2
  else if s = "#e74c3c" then 3
  else if s = "#8e44ad" then 4
  else 0

/-- A district record as seen by the front-end JSON consumers; coordinates may
be absent (`null`) in the data, which the source code guards for. -/
structure JDistrict where
  district_id : String
  district_name : String
  latitude : Option ℚ
  longitude : Option ℚ
deriving DecidableEq, Repr

/-- JS truthiness of a possibly-absent number: `null`, `undefined` and `0`
are falsy. -/
def truthy (o : Option ℚ) : Bool :=
  match o with
  | none => false
  | some x => decide (x ≠ 0)

/-- A district passes the guard `if (!d.latitude || !d.longitude) return;` of
`findNearestDistrict` (src/unnamed/part_000 lines 51-52). -/
def validCoords (d : JDistrict) : Bool :=
  truthy d.latitude && truthy d.longitude

/-- The distance key a valid district contributes in `findNearestDistrict`,
for an opaque distance function `distF` (the source's float `haversineDistance`
with R = 6371 is not shallowly embeddable; it is passed in as a parameter). -/
def jKey (distF : ℚ → ℚ → ℚ → ℚ → ℚ) (lat lon : ℚ) (d : JDistrict) : ℚ :=
  distF lat lon (d.latitude.getD 0) (d.longitude.getD 0)

/-- The `forEach` accumulator loop of `findNearestDistrict`
(src/unnamed/part_000 lines 47-61): skip districts with falsy coordinates,
otherwise replace the best candidate exactly when the new distance is strictly
below the running minimum (`minDist` starts at `Infinity`, modelled by the
`none` accumulator which every first valid distance beats). -/
def findNearestGo (distF : ℚ → ℚ → ℚ → ℚ → ℚ) (lat lon : ℚ) :
    List JDistrict → Option (ℚ × JDistrict) → Option (ℚ × JDistrict)
  | [], acc => acc
  | d :: rest, acc =>
    if validCoords d then
      let dv := jKey distF lat lon d
      match acc with
      | none => findNearestGo distF lat lon rest (some (dv, d))
      | some (m, b) =>
        if dv < m then findNearestGo distF lat lon rest (some (dv, d))
        else findNearestGo distF lat lon rest (some (m, b))
    else findNearestGo distF lat lon rest acc

/-- Function `findNearestDistrict(lat, lon, districts)` of src/unnamed/part_000
lines 47-61 (same body in src/js/main.js lines 86-100), returning the
remembered district, or `null` when none was kept. -/
def findNearestDistrict (distF : ℚ → ℚ → ℚ → ℚ → ℚ) (lat lon : ℚ)
    (districts : List JDistrict) : Option JDistrict :=
  (findNearestGo distF lat lon districts none).map (·.2)

/-- Modelled from the spec: the contract `resolve_nearest(lat, lon) ->
District` of spec section 4.1, which "Fails with `NoDistrictsLoadedError` if
the registry is empty" — a raised error, distinct from any returned district
value. No such error class exists anywhere in the source, so the error is
modelled as an `Except.error` carrying the spec's error name; the non-empty
case returns the district selected by the source's `findNearestDistrict`
(the case where that yields no district cannot arise in the spec's data
model, where every district has a centroid, and is mapped to the same
error). This definition exists only to be compared with the source's
null-returning `findNearestDistrict`. -/
def resolve_nearest_spec (distF : ℚ → ℚ → ℚ → ℚ → ℚ) (lat lon : ℚ)
    (districts : List JDistrict) : Except String JDistrict :=
  if districts.isEmpty then .error "NoDistrictsLoadedError"
  else
    match findNearestDistrict distF lat lon districts with
    | some d => .ok d
    | none => .error "NoDistrictsLoadedError"

/-- Subscriber language as stored in the bot's `users.lang` column. -/
inductive Lang where
  | ar
  | en
deriving DecidableEq, Repr

/-- A district entry of `pm10_alerts.json` as the bot reads it in
`check_alerts` (src/iraq-aqi-bot/bot.py.backup lines 235-243): coordinates,
`alert.level`, `aqi.value` and `pm10.now` are accessed unconditionally. -/
structure District where
  district_id : String
  district_name : String
  latitude : ℚ
  longitude : ℚ
  level : AlertLevel
  aqi : ℚ
  pm10_now : ℚ
deriving DecidableEq, Repr

/-- A row of the bot's `users` table (src/iraq-aqi-bot/bot.py.backup
lines 52-63). `chat_id` is the primary key; `district_id` and `last_level`
start as SQL NULL; `lang` defaults to `ar` and `active` to `1`. -/
structure User where
  chat_id : ℤ
  lat : ℚ
  lon : ℚ
  district_id : Option String
  last_level : Option AlertLevel
  lang : Lang
  active : Bool
deriving DecidableEq, Repr

/-- A dispatched alert message of `check_alerts` (src/iraq-aqi-bot/
bot.py.backup lines 248-253): the fields interpolated into the message text
(`nearest['district_name']`, `aqi`, `ALERT_TEXT[lang][level]`) together with
the recipient. Transport and HTML formatting are elided. -/
structure Notif where
  chat_id : ℤ
  district_name : String
  aqi : ℚ
  level : AlertLevel
  lang : Lang
deriving DecidableEq, Repr

/-- The nearest-district loop of `check_alerts` (src/iraq-aqi-bot/
bot.py.backup lines 232-239): `min_d` starts at `99999`, every district is
compared (no coordinate guard here), and the candidate is replaced exactly
when its distance is strictly smaller. -/
def nearestAlertGo (distF : ℚ → ℚ → ℚ → ℚ → ℚ) (lat lon : ℚ) :
    List District → ℚ × Option District → ℚ × Option District
  | [], acc => acc
  | d :: rest, (m, b) =>
    let dv := distF lat lon d.latitude d.longitude
    if dv < m then nearestAlertGo distF lat lon rest (dv, some d)
    else nearestAlertGo distF lat lon rest (m, b)

/-- Resolution of a subscriber's nearest district inside `check_alerts`:
run the loop from `(99999, None)` and keep the remembered district. -/
def nearestAlert (distF : ℚ → ℚ → ℚ → ℚ → ℚ) (districts : List District)
    (lat lon : ℚ) : Option District :=
  (nearestAlertGo distF lat lon districts (99999, none)).2

/-- The nearest-district loop of `handle_location` (src/iraq-aqi-bot/
bot.py.backup lines 147-156): identical to the `check_alerts` loop except
that districts with a falsy `latitude` are skipped
(`if not d.get('latitude'): continue`; the falsy rational is `0`). -/
def nearestLocGo (distF : ℚ → ℚ → ℚ → ℚ → ℚ) (lat lon : ℚ) :
    List District → ℚ × Option District → ℚ × Option District
  | [], acc => acc
  | d :: rest, (m, b) =>
    if d.latitude = 0 then nearestLocGo distF lat lon rest (m, b)
    else
      let dv := distF lat lon d.latitude d.longitude
      if dv < m then nearestLocGo distF lat lon rest (dv, some d)
      else nearestLocGo distF lat lon rest (m, b)

/-- Resolution of the nearest district inside `handle_location`. -/
def nearestLoc (distF : ℚ → ℚ → ℚ → ℚ → ℚ) (districts : List District)
    (lat lon : ℚ) : Option District :=
  (nearestLocGo distF lat lon districts (99999, none)).2

/-- The row created by the bot's
`INSERT INTO users(chat_id, lat, lon, district_id) VALUES(?,?,?,?)` when no
row with this `chat_id` exists: the remaining columns take their schema
defaults (`last_level` NULL, `lang` 'ar', `active` 1). -/
def freshUser (cid : ℤ) (lat lon : ℚ) (did : String) : User :=
  { chat_id := cid, lat := lat, lon := lon, district_id := some did,
    last_level := none, lang := Lang.ar, active := true }

/-- The `ON CONFLICT(chat_id) DO UPDATE SET lat=?, lon=?, district_id=?,
active=1` upsert of `handle_location` (src/iraq-aqi-bot/bot.py.backup
lines 162-171): update the existing row in place when the key is present,
insert a fresh row otherwise. `last_level` and `lang` are untouched by the
update branch. -/
def upsertUser (table : List User) (cid : ℤ) (lat lon : ℚ) (did : String) :
    List User :=
  if table.any (fun u => u.chat_id = cid) then
    table.map (fun u =>
      if u.chat_id = cid then
        { u with lat := lat, lon := lon, district_id := some did,
                 active := true }
      else u)
  else table ++ [freshUser cid lat lon did]

/-- Handler `handle_location(chat_id, lat, lon)` (src/iraq-aqi-bot/bot.py.backup
lines 144-177) acting on the `users` table: resolve the nearest district;
if none was found, send an error message and leave the table unchanged;
otherwise upsert the subscriber row. -/
def handle_location (distF : ℚ → ℚ → ℚ → ℚ → ℚ) (districts : List District)
    (cid : ℤ) (lat lon : ℚ) (table : List User) : List User :=
  match nearestLoc distF districts lat lon with
  | none => table
  | some n => upsertUser table cid lat lon n.district_id

/-- The dispatch condition of `check_alerts` (src/iraq-aqi-bot/bot.py.backup
line 247): `if dust or level != last`, where `last` may be SQL NULL. -/
def alertCond (u : User) (n : District) : Bool :=
  is_dust_storm n.pm10_now n.aqi || decide (some n.level ≠ u.last_level)

/-- The message sent for subscriber `u` about district `n`. -/
def mkMsg (u : User) (n : District) : Notif :=
  { chat_id := u.chat_id, district_name := n.district_name, aqi := n.aqi,
    level := n.level, lang := u.lang }

/-- The `UPDATE users SET last_level=? WHERE chat_id=?` of `check_alerts`
(src/iraq-aqi-bot/bot.py.backup lines 255-258). -/
def updateLastLevel (table : List User) (cid : ℤ) (lvl : AlertLevel) :
    List User :=
  table.map (fun u =>
    if u.chat_id = cid then { u with last_level := some lvl } else u)

/-- The per-subscriber loop body of `check_alerts` folded over the rows
fetched by `SELECT … WHERE active=1`. On an unresolvable nearest district
(`nearest` still `None`), the subscript `nearest['alert']` raises an uncaught
`TypeError`, modelled as `Except.error` carrying the messages already sent
and the table as left behind. -/
def checkAlertsGo (distF : ℚ → ℚ → ℚ → ℚ → ℚ) (districts : List District) :
    List User → List Notif → List User →
    Except (List Notif × List User) (List Notif × List User)
  | [], ns, t => .ok (ns, t)
  | u :: rest, ns, t =>
    match nearestAlert distF districts u.lat u.lon with
    | none => .error (ns, t)
    | some n =>
      if alertCond u n then
        checkAlertsGo distF districts rest (ns ++ [mkMsg u n])
          (updateLastLevel t u.chat_id n.level)
      else
        checkAlertsGo distF districts rest ns t

/-- Alert engine `check_alerts()` (src/iraq-aqi-bot/bot.py.backup lines 225-259): fetch
the active subscribers once, then process each in order; the result is the
list of dispatched messages and the final `users` table. -/
def check_alerts (distF : ℚ → ℚ → ℚ → ℚ → ℚ) (districts : List District)
    (table : List User) :
    Except (List Notif × List User) (List Notif × List User) :=
  checkAlertsGo distF districts (table.filter (fun u => u.active)) [] table

/-- The observable outcome of a `check_alerts` run: the messages dispatched
and the table state, whether the cycle completed or crashed part-way. -/
def alertOutcome (r : Except (List Notif × List User) (List Notif × List User)) :
    List Notif × List User :=
  match r with
  | .ok a => a
  | .error a => a

/-- The message `check_alerts` would dispatch for one fetched row, if any:
`None` both when the nearest district is unresolvable and when the dispatch
condition is false. Used to state the shape of a completed cycle. -/
def mkNotif (distF : ℚ → ℚ → ℚ → ℚ → ℚ) (districts : List District)
    (u : User) : Option Notif :=
  match nearestAlert distF districts u.lat u.lon with
  | none => none
  | some n => if alertCond u n then some (mkMsg u n) else none

/-- The effect of processing one fetched row on a single table row `w`:
`last_level` is set exactly when the dispatch condition holds and the keys
match. Elementwise form of `updateLastLevel`. -/
def stepElem (distF : ℚ → ℚ → ℚ → ℚ → ℚ) (districts : List District)
    (u : User) (w : User) : User :=
  match nearestAlert distF districts u.lat u.lon with
  | none => w
  | some n =>
    if alertCond u n then
      (if w.chat_id = u.chat_id then { w with last_level := some n.level }
       else w)
    else w

/-- The effect of processing one fetched row on the whole table. -/
def stepTable (distF : ℚ → ℚ → ℚ → ℚ → ℚ) (districts : List District)
    (t : List User) (u : User) : List User :=
  match nearestAlert distF districts u.lat u.lon with
  | none => t
  | some n => if alertCond u n then updateLastLevel t u.chat_id n.level else t

/-- The cumulative effect of a whole fetched worklist on one table row. -/
def elemRun (distF : ℚ → ℚ → ℚ → ℚ → ℚ) (districts : List District)
    (wl : List User) (w : User) : User :=
  wl.foldl (fun w v => stepElem distF districts v w) w

/-- Statement that `d` is the first district, in list order, among those
passing the coordinate guard, attaining the minimum distance key `m`: every
valid district before it is strictly farther, every valid district after it
at least as far. This is exactly the element kept by a strict-less fold. -/
@[reducible]
def IsFirstMin (distF : ℚ → ℚ → ℚ → ℚ → ℚ) (lat lon : ℚ)
    (ds : List JDistrict) (m : ℚ) (d : JDistrict) : Prop :=
  ∃ pre post, ds = pre ++ d :: post ∧ validCoords d = true ∧
    m = jKey distF lat lon d ∧
    (∀ v ∈ pre, validCoords v = true → m < jKey distF lat lon v) ∧
    (∀ v ∈ post, validCoords v = true → m ≤ jKey distF lat lon v)

/-- Behaviour of the `findNearestDistrict` fold started from a kept candidate
`(m, b)`: either no valid district beats `m` and the candidate survives, or
the result is the first valid district whose key is the (strictly smaller)
minimum of the remaining keys. -/
theorem findNearestGo_some_spec (distF : ℚ → ℚ → ℚ → ℚ → ℚ) (lat lon : ℚ) :
    ∀ (ds : List JDistrict) (m : ℚ) (b : JDistrict),
      (findNearestGo distF lat lon ds (some (m, b)) = some (m, b) ∧
        ∀ v ∈ ds, validCoords v = true → m ≤ jKey distF lat lon v) ∨
      (∃ m2 d, findNearestGo distF lat lon ds (some (m, b)) = some (m2, d) ∧
        m2 < m ∧ IsFirstMin distF lat lon ds m2 d) := by
  intro ds
  induction ds with
  | nil =>
    intro m b
    left
    exact ⟨rfl, by simp⟩
  | cons d rest ih =>
    intro m b
    by_cases hv : validCoords d = true
    · by_cases hlt : jKey distF lat lon d < m
      · have hgo : findNearestGo distF lat lon (d :: rest) (some (m, b)) =
            findNearestGo distF lat lon rest
              (some (jKey distF lat lon d, d)) := by
          simp [findNearestGo, hv, hlt]
        rcases ih (jKey distF lat lon d) d with
          ⟨heq, hall⟩ | ⟨m2, d2, heq, hm2, hfm⟩
        · right
          refine ⟨jKey distF lat lon d, d, by rw [hgo]; exact heq, hlt,
            [], rest, rfl, hv, rfl, ?_, hall⟩
          intro v hv2
          simp at hv2
        · right
          obtain ⟨pre, post, hsplit, hvd2, hkey, hpre, hpost⟩ := hfm
          refine ⟨m2, d2, by rw [hgo]; exact heq, lt_trans hm2 hlt,
            d :: pre, post, by rw [hsplit]; rfl, hvd2, hkey, ?_, hpost⟩
          intro v hv2 hval
          rcases List.mem_cons.mp hv2 with h | h
          · subst h
            exact hm2
          · exact hpre v h hval
      · have hgo : findNearestGo distF lat lon (d :: rest) (some (m, b)) =
            findNearestGo distF lat lon rest (some (m, b)) := by
          simp [findNearestGo, hv, hlt]
        rcases ih m b with ⟨heq, hall⟩ | ⟨m2, d2, heq, hm2, hfm⟩
        · left
          refine ⟨by rw [hgo]; exact heq, ?_⟩
          intro v hv2 hval
          rcases List.mem_cons.mp hv2 with h | h
          · subst h
            exact le_of_not_lt hlt
          · exact hall v h hval
        · right
          obtain ⟨pre, post, hsplit, hvd2, hkey, hpre, hpost⟩ := hfm
          refine ⟨m2, d2, by rw [hgo]; exact heq, hm2,
            d :: pre, post, by rw [hsplit]; rfl, hvd2, hkey, ?_, hpost⟩
          intro v hv2 hval
          rcases List.mem_cons.mp hv2 with h | h
          · subst h
            exact lt_of_lt_of_le hm2 (le_of_not_lt hlt)
          · exact hpre v h hval
    · have hgo : findNearestGo distF lat lon (d :: rest) (some (m, b)) =
          findNearestGo distF lat lon rest (some (m, b)) := by
        simp [findNearestGo, hv]
      rcases ih m b with ⟨heq, hall⟩ | ⟨m2, d2, heq, hm2, hfm⟩
      · left
        refine ⟨by rw [hgo]; exact heq, ?_⟩
        intro v hv2 hval
        rcases List.mem_cons.mp hv2 with h | h
        · subst h
          exact absurd hval hv
        · exact hall v h hval
      · right
        obtain ⟨pre, post, hsplit, hvd2, hkey, hpre, hpost⟩ := hfm
        refine ⟨m2, d2, by rw [hgo]; exact heq, hm2,
          d :: pre, post, by rw [hsplit]; rfl, hvd2, hkey, ?_, hpost⟩
        intro v hv2 hval
        rcases List.mem_cons.mp hv2 with h | h
        · subst h
          exact absurd hval hv
        · exact hpre v h hval

/-- Behaviour of the `findNearestDistrict` fold from the initial `Infinity`
accumulator: either no district is valid and the result is `null`, or the
result is the first valid district attaining the minimum key. -/
theorem findNearestGo_none_spec (distF : ℚ → ℚ → ℚ → ℚ → ℚ) (lat lon : ℚ) :
    ∀ ds : List JDistrict,
      (findNearestGo distF lat lon ds none = none ∧
        ∀ v ∈ ds, ¬ validCoords v = true) ∨
      (∃ m d, findNearestGo distF lat lon ds none = some (m, d) ∧
        IsFirstMin distF lat lon ds m d) := by
  intro ds
  induction ds with
  | nil =>
    left
    exact ⟨rfl, by simp⟩
  | cons d rest ih =>
    by_cases hv : validCoords d = true
    · have hgo : findNearestGo distF lat lon (d :: rest) none =
          findNearestGo distF lat lon rest
            (some (jKey distF lat lon d, d)) := by
        simp [findNearestGo, hv]
      rcases findNearestGo_some_spec distF lat lon rest
          (jKey distF lat lon d) d with ⟨heq, hall⟩ | ⟨m2, d2, heq, hm2, hfm⟩
      · right
        refine ⟨jKey distF lat lon d, d, by rw [hgo]; exact heq,
          [], rest, rfl, hv, rfl, ?_, hall⟩
        intro v hv2
        simp at hv2
      · right
        obtain ⟨pre, post, hsplit, hvd2, hkey, hpre, hpost⟩ := hfm
        refine ⟨m2, d2, by rw [hgo]; exact heq,
          d :: pre, post, by rw [hsplit]; rfl, hvd2, hkey, ?_, hpost⟩
        intro v hv2 hval
        rcases List.mem_cons.mp hv2 with h | h
        · subst h
          exact hm2
        · exact hpre v h hval
    · have hgo : findNearestGo distF lat lon (d :: rest) none =
          findNearestGo distF lat lon rest none := by
        simp [findNearestGo, hv]
      rcases ih with ⟨heq, hall⟩ | ⟨m2, d2, heq, hfm⟩
      · left
        refine ⟨by rw [hgo]; exact heq, ?_⟩
        intro v hv2
        rcases List.mem_cons.mp hv2 with h | h
        · subst h
          exact hv
        · exact hall v h
      · right
        obtain ⟨pre, post, hsplit, hvd2, hkey, hpre, hpost⟩ := hfm
        refine ⟨m2, d2, by rw [hgo]; exact heq,
          d :: pre, post, by rw [hsplit]; rfl, hvd2, hkey, ?_, hpost⟩
        intro v hv2 hval
        rcases List.mem_cons.mp hv2 with h | h
        · subst h
          exact absurd hval hv
        · exact hpre v h hval

/-- C2: for all inputs, the dust-storm predicates of src/unnamed/part_000
(`isDustStormCondition`) and of the bot (`is_dust_storm`) agree and are true
exactly when `pm10 ≥ 300` or `aqi ≥ 200`; at the boundary input
`pm10 = 299.9, aqi = 199` they are false. -/
theorem C2_dust_storm_iff :
    (∀ pm10 aqi : ℚ,
        isDustStormCondition pm10 aqi = true ↔ (300 ≤ pm10 ∨ 200 ≤ aqi)) ∧
    (∀ pm10 aqi : ℚ, is_dust_storm pm10 aqi = isDustStormCondition pm10 aqi) ∧
    isDustStormCondition (2999/10) 199 = false ∧
    is_dust_storm (2999/10) 199 = false := by
  refine ⟨?_, ?_, ?_, ?_⟩
  · intro p a
    simp [isDustStormCondition]
  · intro p a
    rfl
  · norm_num [isDustStormCondition]
  · norm_num [is_dust_storm]

/-- C3: increasing PM10 concentration never decreases the severity rank of
the level assigned by `getAQILevel`, nor the severity rank of the colour
assigned by `getColor` (src/unnamed/part_001). -/
theorem C3_classifier_monotone (c1 c2 : ℚ) (h : c1 < c2) :
    sevLabel (getAQILevel c1) ≤ sevLabel (getAQILevel c2) ∧
    sevColor (getColor c1) ≤ sevColor (getColor c2) := by
  constructor
  · unfold getAQILevel
    split_ifs
    all_goals first | decide | linarith
  · unfold getColor
    split_ifs
    all_goals first | decide | linarith

/-- Witness for C3 at the concrete pair `30 < 120`. -/
theorem C3_witness :
    (30 : ℚ) < 120 ∧
    (sevLabel (getAQILevel 30) ≤ sevLabel (getAQILevel 120) ∧
     sevColor (getColor 30) ≤ sevColor (getColor 120)) :=
  ⟨by norm_num, C3_classifier_monotone 30 120 (by norm_num)⟩

/-- C4 counterexample: at concentration 120 the classifier `getAQILevel`
returns the label `"Unhealthy"`, which is not one of the six documented level
tokens (in particular, the documented scale expects
`unhealthy_for_sensitive_groups` in the 101-150 band, a level this classifier
never produces). -/
theorem C4_counterexample :
    getAQILevel 120 = "Unhealthy" ∧ "Unhealthy" ∉ documentedLevels := by
  constructor
  · norm_num [getAQILevel]
  · decide

/-- C4 amended: `getAQILevel` assigns exactly one of five labels via an
ordered, non-overlapping, ascending breakpoint table
(`≤ 50`, `≤ 100`, `≤ 150`, `≤ 300`, `> 300`); the six-token documented scale
(with `unhealthy_for_sensitive_groups`) is not its codomain. -/
theorem C4_five_level_table (c : ℚ) :
    getAQILevel c ∈ ["Good", "Moderate", "Unhealthy", "Very Unhealthy",
                     "Hazardous"] ∧
    (getAQILevel c = "Good" ↔ c ≤ 50) ∧
    (getAQILevel c = "Moderate" ↔ 50 < c ∧ c ≤ 100) ∧
    (getAQILevel c = "Unhealthy" ↔ 100 < c ∧ c ≤ 150) ∧
    (getAQILevel c = "Very Unhealthy" ↔ 150 < c ∧ c ≤ 300) ∧
    (getAQILevel c = "Hazardous" ↔ 300 < c) := by
  unfold getAQILevel
  split_ifs with h1 h2 h3 h4 <;>
    refine ⟨by decide, ?_, ?_, ?_, ?_, ?_⟩ <;>
    constructor <;>
    intro hx <;>
    first
      | rfl
      | assumption
      | (exact absurd hx (by decide))
      | linarith
      | (constructor <;> linarith)

/-- C5 counterexample: the dust-storm evaluation of src/js/main.js coerces an
absent PM10 value to the number 0: with `pm10` absent it still produces a
definite boolean, equal to the one produced by a reading of `0`, and the
health-icon rendering of wholly absent data equals that of zero readings. -/
theorem C5_counterexample :
    isDustStormConditionMain none (some 199) = false ∧
    isDustStormConditionMain none (some 199) =
      isDustStormConditionMain (some 0) (some 199) ∧
    getHealthIconsMain none none none =
      getHealthIconsMain (some 0) (some 0) none := by
  refine ⟨?_, rfl, rfl⟩
  norm_num [isDustStormConditionMain, isDustStormCondition, orZero]

/-- C5 amended: in the front end (src/js/main.js), absent `pm10`/`aqi`
inputs are substituted by the numeric value 0: dust-storm evaluation and the
health-icon table treat an absent concentration exactly as a reading of `0`,
and present values follow the pure `pm10 ≥ 300 ∨ aqi ≥ 200` rule. -/
theorem C5_absence_coerced_to_zero :
    (∀ a : Option ℚ,
        isDustStormConditionMain none a = isDustStormConditionMain (some 0) a) ∧
    (∀ p : Option ℚ,
        isDustStormConditionMain p none = isDustStormConditionMain p (some 0)) ∧
    (∀ p a : ℚ,
        isDustStormConditionMain (some p) (some a) = isDustStormCondition p a) ∧
    (∀ a p : Option ℚ, ∀ t : Option ℤ,
        getHealthIconsMain a p t =
          getHealthIconsMain (some (orZero a)) (some (orZero p)) t) := by
  refine ⟨fun a => rfl, fun p => rfl, fun p a => rfl, fun a p t => ?_⟩
  cases a <;> cases p <;> rfl

/-- C6 counterexample: a non-empty registry whose only district has a
centroid on the equator (`latitude = 0`, a falsy JS number): the claim says
the minimum-distance district is returned; the code skips it at the
`!d.latitude` guard and returns the null sentinel instead. -/
theorem C6_counterexample :
    ([({ district_id := "eq", district_name := "Equator",
         latitude := some 0, longitude := some 10 } : JDistrict)] ≠
      ([] : List JDistrict)) ∧
    findNearestDistrict (fun _ _ _ _ => 0) 33 44
      [({ district_id := "eq", district_name := "Equator",
          latitude := some 0, longitude := some 10 } : JDistrict)] = none := by
  exact ⟨by decide, rfl⟩

/-- C6 amended: for every distance function (in the source, the float
haversine with R = 6371, opaque here) and every registry containing at least
one district with truthy (present and nonzero) coordinates,
`findNearestDistrict` returns the first district, in registry iteration
order, among those with truthy coordinates, attaining the minimum distance:
every valid district strictly earlier is strictly farther (ties go to the
first minimum) and every valid district is at least as far; districts with
missing or zero coordinates are skipped. -/
theorem C6_first_valid_minimum (distF : ℚ → ℚ → ℚ → ℚ → ℚ) (lat lon : ℚ)
    (districts : List JDistrict)
    (h : ∃ d ∈ districts, validCoords d = true) :
    ∃ d, findNearestDistrict distF lat lon districts = some d ∧
      IsFirstMin distF lat lon districts (jKey distF lat lon d) d := by
  rcases findNearestGo_none_spec distF lat lon districts with
    ⟨heq, hall⟩ | ⟨m, d, heq, hfm⟩
  · obtain ⟨d, hd, hval⟩ := h
    exact absurd hval (hall d hd)
  · refine ⟨d, ?_, ?_⟩
    · simp [findNearestDistrict, heq]
    · obtain ⟨pre, post, hsplit, hvd, hkey, hpre, hpost⟩ := hfm
      subst hkey
      exact ⟨pre, post, hsplit, hvd, rfl, hpre, hpost⟩

/-- Witness for C6 on a concrete two-district registry: the second district
is nearer under the concrete distance function and is returned. -/
theorem C6_witness :
    (∃ d ∈ [({ district_id := "bgd", district_name := "Baghdad",
               latitude := some 33, longitude := some 44 } : JDistrict),
            ({ district_id := "njf", district_name := "Najaf",
               latitude := some 32, longitude := some 44 } : JDistrict)],
        validCoords d = true) ∧
    ∃ d, findNearestDistrict (fun _ _ la _ => la) 32 44
        [({ district_id := "bgd", district_name := "Baghdad",
            latitude := some 33, longitude := some 44 } : JDistrict),
         ({ district_id := "njf", district_name := "Najaf",
            latitude := some 32, longitude := some 44 } : JDistrict)] =
        some d ∧
      IsFirstMin (fun _ _ la _ => la) 32 44
        [({ district_id := "bgd", district_name := "Baghdad",
            latitude := some 33, longitude := some 44 } : JDistrict),
         ({ district_id := "njf", district_name := "Najaf",
            latitude := some 32, longitude := some 44 } : JDistrict)]
        (jKey (fun _ _ la _ => la) 32 44 d) d :=
  ⟨by decide,
   C6_first_valid_minimum (fun _ _ la _ => la) 32 44
     [({ district_id := "bgd", district_name := "Baghdad",
         latitude := some 33, longitude := some 44 } : JDistrict),
      ({ district_id := "njf", district_name := "Najaf",
         latitude := some 32, longitude := some 44 } : JDistrict)]
     (by decide)⟩

/-- C7 counterexample: at the concrete empty registry and query point
(33, 44), the spec's contract `resolve_nearest_spec` fails with
`NoDistrictsLoadedError`, but the source's `findNearestDistrict` (and the
bot's `handle_location` resolution `nearestLoc`) return the null/None
sentinel — an ordinary return value, not a raised error — refuting the
claim that resolution fails with a `NoDistrictsLoadedError` rather than
returning a result value. -/
theorem C7_counterexample :
    resolve_nearest_spec (fun _ _ _ _ => 0) 33 44 [] =
      Except.error "NoDistrictsLoadedError" ∧
    findNearestDistrict (fun _ _ _ _ => 0) 33 44 [] = none ∧
    nearestLoc (fun _ _ _ _ => 0) [] 33 44 = none :=
  ⟨rfl, rfl, rfl⟩

/-- C7 amended: on an empty district registry every query point fails to
resolve, but by returning the null/None sentinel (an ordinary return value;
no `NoDistrictsLoadedError` exists in the code): the front-end
`findNearestDistrict` returns `none`, never a district, the bot's
nearest-district resolutions return `None`, and `handle_location` treats the
sentinel as failure and registers nothing (the `users` table is
unchanged). -/
theorem C7_empty_registry :
    (∀ distF : ℚ → ℚ → ℚ → ℚ → ℚ, ∀ lat lon : ℚ,
        findNearestDistrict distF lat lon [] = none) ∧
    (∀ distF : ℚ → ℚ → ℚ → ℚ → ℚ, ∀ lat lon : ℚ,
        nearestLoc distF [] lat lon = none ∧
        nearestAlert distF [] lat lon = none) ∧
    (∀ distF : ℚ → ℚ → ℚ → ℚ → ℚ, ∀ cid : ℤ, ∀ lat lon : ℚ,
        ∀ table : List User,
        handle_location distF [] cid lat lon table = table) := by
  exact ⟨fun _ _ _ => rfl, fun _ _ _ => ⟨rfl, rfl⟩, fun _ _ _ _ _ => rfl⟩

/-- Frame property of the `check_alerts` loop: a table row whose `chat_id`
occurs neither in the remaining worklist nor among the messages sent so far
survives the rest of the cycle untouched, and no message is ever addressed
to it — whether the cycle completes or crashes part-way. -/
theorem checkAlertsGo_frame (distF : ℚ → ℚ → ℚ → ℚ → ℚ)
    (districts : List District) (c : ℤ) :
    ∀ (wl : List User) (ns : List Notif) (t : List User) (u : User),
      u ∈ t → u.chat_id = c →
      (∀ v ∈ wl, v.chat_id ≠ c) → (∀ m ∈ ns, m.chat_id ≠ c) →
      u ∈ (alertOutcome (checkAlertsGo distF districts wl ns t)).2 ∧
      ∀ m ∈ (alertOutcome (checkAlertsGo distF districts wl ns t)).1,
        m.chat_id ≠ c := by
  intro wl
  induction wl with
  | nil =>
    intro ns t u hu huc hwl hns
    exact ⟨hu, hns⟩
  | cons v rest ih =>
    intro ns t u hu huc hwl hns
    have hvc : v.chat_id ≠ c := hwl v (List.mem_cons_self v rest)
    have hrest : ∀ w ∈ rest, w.chat_id ≠ c :=
      fun w hw => hwl w (List.mem_cons_of_mem v hw)
    cases hne : nearestAlert distF districts v.lat v.lon with
    | none =>
      simp only [checkAlertsGo, hne]
      exact ⟨hu, hns⟩
    | some n =>
      simp only [checkAlertsGo, hne]
      by_cases hc : alertCond v n = true
      · rw [if_pos hc]
        apply ih
        · have hne2 : ¬ u.chat_id = v.chat_id := fun hh => hvc (hh ▸ huc)
          have hmap := List.mem_map_of_mem
            (fun w => if w.chat_id = v.chat_id then
              { w with last_level := some n.level } else w) hu
          simp only [if_neg hne2] at hmap
          exact hmap
        · exact huc
        · exact hrest
        · intro m hm
          rcases List.mem_append.mp hm with h | h
          · exact hns m h
          · have : m = mkMsg v n := by simpa using h
            rw [this]
            exact hvc
      · rw [if_neg hc]
        exact ih ns t u hu huc hrest hns

/-- C8 (crash on unresolvable district): with an empty registry and one
active subscriber, `check_alerts` aborts with the uncaught `TypeError`
(`nearest['alert']` on `None`): no message is dispatched and the table is
unchanged, but the cycle is aborted rather than the subscriber skipped. -/
theorem C8_empty_registry_crash :
    check_alerts (fun _ _ _ _ => 0) []
      [({ chat_id := 1, lat := 33, lon := 44, district_id := none,
          last_level := none, lang := Lang.ar, active := true } : User)] =
    .error ([],
      [({ chat_id := 1, lat := 33, lon := 44, district_id := none,
          last_level := none, lang := Lang.ar, active := true } : User)]) :=
  rfl

/-- C9: an inactive subscriber is skipped by `check_alerts`: its row is still
present, bit-for-bit unchanged, in the resulting table, and no dispatched
message is addressed to it (assuming the primary-key invariant that
`chat_id` is unique in the table). -/
theorem C9_inactive_skipped (distF : ℚ → ℚ → ℚ → ℚ → ℚ)
    (districts : List District) (table : List User) (u : User)
    (hmem : u ∈ table) (hinact : u.active = false)
    (hnodup : (table.map (fun v => v.chat_id)).Nodup) :
    u ∈ (alertOutcome (check_alerts distF districts table)).2 ∧
    ∀ m ∈ (alertOutcome (check_alerts distF districts table)).1,
      m.chat_id ≠ u.chat_id := by
  apply checkAlertsGo_frame distF districts u.chat_id _ _ _ _ hmem rfl
  · intro v hv hvc
    have hvt : v ∈ table := List.mem_of_mem_filter hv
    have hva : (fun w => w.active) v = true := List.of_mem_filter hv
    have hvu : v = u := List.inj_on_of_nodup_map hnodup hvt hmem hvc
    rw [hvu] at hva
    simp only [hinact] at hva
    cases hva
  · intro m hm
    simp at hm

/-- Witness for C9: a concrete inactive subscriber is untouched by a cycle. -/
theorem C9_witness :
    (({ chat_id := 7, lat := 30, lon := 47, district_id := none,
        last_level := none, lang := Lang.en, active := false } : User) ∈
      [({ chat_id := 7, lat := 30, lon := 47, district_id := none,
          last_level := none, lang := Lang.en, active := false } : User)]) ∧
    (({ chat_id := 7, lat := 30, lon := 47, district_id := none,
        last_level := none, lang := Lang.en, active := false } : User) ∈
      (alertOutcome (check_alerts (fun _ _ _ _ => 1) []
        [({ chat_id := 7, lat := 30, lon := 47, district_id := none,
            last_level := none, lang := Lang.en, active := false } : User)])).2 ∧
     ∀ m ∈ (alertOutcome (check_alerts (fun _ _ _ _ => 1) []
        [({ chat_id := 7, lat := 30, lon := 47, district_id := none,
            last_level := none, lang := Lang.en, active := false } : User)])).1,
       m.chat_id ≠
         ({ chat_id := 7, lat := 30, lon := 47, district_id := none,
            last_level := none, lang := Lang.en, active := false } : User).chat_id) :=
  ⟨by decide,
   C9_inactive_skipped (fun _ _ _ _ => 1) []
     [({ chat_id := 7, lat := 30, lon := 47, district_id := none,
         last_level := none, lang := Lang.en, active := false } : User)]
     ({ chat_id := 7, lat := 30, lon := 47, district_id := none,
        last_level := none, lang := Lang.en, active := false } : User)
     (by decide) (by decide) (by decide)⟩

/-- The bot's dispatch condition unfolded to its proposition:
dust storm, or resolved level different from the stored one. -/
theorem alertCond_iff (u : User) (n : District) :
    alertCond u n = true ↔
      (is_dust_storm n.pm10_now n.aqi = true ∨ some n.level ≠ u.last_level) := by
  simp [alertCond]

/-- A completed `check_alerts` cycle (every fetched row resolves a nearest
district) dispatches exactly the per-row messages and applies exactly the
per-row table updates, in worklist order. -/
theorem checkAlertsGo_ok (distF : ℚ → ℚ → ℚ → ℚ → ℚ)
    (districts : List District) :
    ∀ (wl : List User) (ns : List Notif) (t : List User),
      (∀ v ∈ wl, (nearestAlert distF districts v.lat v.lon).isSome = true) →
      checkAlertsGo distF districts wl ns t =
        .ok (ns ++ wl.filterMap (mkNotif distF districts),
             wl.foldl (stepTable distF districts) t) := by
  intro wl
  induction wl with
  | nil =>
    intro ns t _
    simp [checkAlertsGo]
  | cons v rest ih =>
    intro ns t hall
    obtain ⟨n, hn⟩ := Option.isSome_iff_exists.mp
      (hall v (List.mem_cons_self v rest))
    have hrest : ∀ w ∈ rest,
        (nearestAlert distF districts w.lat w.lon).isSome = true :=
      fun w hw => hall w (List.mem_cons_of_mem v hw)
    by_cases hc : alertCond v n = true
    · have hmk : mkNotif distF districts v = some (mkMsg v n) := by
        simp [mkNotif, hn, hc]
      have hst : stepTable distF districts t v =
          updateLastLevel t v.chat_id n.level := by
        simp [stepTable, hn, hc]
      simp only [checkAlertsGo, hn]
      rw [if_pos hc, ih _ _ hrest, List.foldl_cons, hst]
      simp [List.filterMap_cons, hmk]
    · have hmk : mkNotif distF districts v = none := by
        simp [mkNotif, hn, hc]
      have hst : stepTable distF districts t v = t := by
        simp [stepTable, hn, hc]
      simp only [checkAlertsGo, hn]
      rw [if_neg hc, ih _ _ hrest, List.foldl_cons, hst]
      simp [List.filterMap_cons, hmk]

/-- The per-row table update is the elementwise map `stepElem`. -/
theorem stepTable_eq_map (distF : ℚ → ℚ → ℚ → ℚ → ℚ)
    (districts : List District) (t : List User) (v : User) :
    stepTable distF districts t v = t.map (stepElem distF districts v) := by
  unfold stepTable stepElem updateLastLevel
  cases nearestAlert distF districts v.lat v.lon with
  | none => simp
  | some n =>
    by_cases hc : alertCond v n = true
    · simp [hc]
    · simp [hc]

/-- Unfolding of `elemRun` on a cons worklist. -/
theorem elemRun_cons (distF : ℚ → ℚ → ℚ → ℚ → ℚ)
    (districts : List District) (v : User) (rest : List User) (w : User) :
    elemRun distF districts (v :: rest) w =
      elemRun distF districts rest (stepElem distF districts v w) :=
  rfl

/-- The table after a completed worklist is the pointwise image of the
initial table under the cumulative per-row effect. -/
theorem foldl_stepTable_eq_map (distF : ℚ → ℚ → ℚ → ℚ → ℚ)
    (districts : List District) :
    ∀ (wl : List User) (t : List User),
      wl.foldl (stepTable distF districts) t =
        t.map (elemRun distF districts wl) := by
  intro wl
  induction wl with
  | nil =>
    intro t
    have hid : elemRun distF districts [] = fun w => w := rfl
    rw [hid]
    exact (List.map_id' t).symm
  | cons v rest ih =>
    intro t
    rw [List.foldl_cons, stepTable_eq_map, ih, List.map_map]
    rfl

/-- Processing a row never changes a table row's key. -/
theorem stepElem_chat_id (distF : ℚ → ℚ → ℚ → ℚ → ℚ)
    (districts : List District) (v w : User) :
    (stepElem distF districts v w).chat_id = w.chat_id := by
  unfold stepElem
  cases nearestAlert distF districts v.lat v.lon with
  | none => rfl
  | some n =>
    by_cases hc : alertCond v n = true
    · by_cases hw : w.chat_id = v.chat_id
      · simp [hc, hw]
      · simp [hc, hw]
    · simp [hc]

/-- A whole worklist never changes a table row's key. -/
theorem elemRun_chat_id (distF : ℚ → ℚ → ℚ → ℚ → ℚ)
    (districts : List District) :
    ∀ (wl : List User) (w : User),
      (elemRun distF districts wl w).chat_id = w.chat_id := by
  intro wl
  induction wl with
  | nil => intro w; rfl
  | cons v rest ih =>
    intro w
    rw [elemRun_cons, ih, stepElem_chat_id]

/-- A fetched row with a different key leaves a table row unchanged. -/
theorem stepElem_ne (distF : ℚ → ℚ → ℚ → ℚ → ℚ)
    (districts : List District) (v w : User) (h : w.chat_id ≠ v.chat_id) :
    stepElem distF districts v w = w := by
  unfold stepElem
  cases nearestAlert distF districts v.lat v.lon with
  | none => rfl
  | some n =>
    by_cases hc : alertCond v n = true
    · simp [hc, h]
    · simp [hc]

/-- A worklist avoiding a row's key leaves that row unchanged. -/
theorem elemRun_avoid (distF : ℚ → ℚ → ℚ → ℚ → ℚ)
    (districts : List District) :
    ∀ (wl : List User) (w : User),
      (∀ v ∈ wl, v.chat_id ≠ w.chat_id) →
      elemRun distF districts wl w = w := by
  intro wl
  induction wl with
  | nil => intro w _; rfl
  | cons v rest ih =>
    intro w h
    rw [elemRun_cons,
      stepElem_ne distF districts v w
        (fun hh => h v (List.mem_cons_self v rest) hh.symm)]
    exact ih w (fun x hx => h x (List.mem_cons_of_mem v hx))

/-- Cumulative effect of a worklist containing a row exactly once: the row's
`last_level` is set to the resolved level exactly when the dispatch condition
held at fetch time; all other fields survive. -/
theorem elemRun_update (distF : ℚ → ℚ → ℚ → ℚ → ℚ)
    (districts : List District) (wl1 wl2 : List User) (u : User)
    (n : District)
    (h1 : ∀ v ∈ wl1, v.chat_id ≠ u.chat_id)
    (h2 : ∀ v ∈ wl2, v.chat_id ≠ u.chat_id)
    (hn : nearestAlert distF districts u.lat u.lon = some n) :
    elemRun distF districts (wl1 ++ u :: wl2) u =
      (if alertCond u n = true then { u with last_level := some n.level }
       else u) := by
  have happ : elemRun distF districts (wl1 ++ u :: wl2) u =
      elemRun distF districts (u :: wl2) (elemRun distF districts wl1 u) :=
    List.foldl_append _ _ _ _
  rw [happ, elemRun_avoid distF districts wl1 u h1, elemRun_cons]
  have hstep : stepElem distF districts u u =
      (if alertCond u n = true then { u with last_level := some n.level }
       else u) := by
    simp only [stepElem, hn]
    by_cases hc : alertCond u n = true
    · simp [hc]
    · simp [hc]
  rw [hstep]
  by_cases hc : alertCond u n = true
  · rw [if_pos hc]
    apply elemRun_avoid
    intro v hv
    exact h2 v hv
  · rw [if_neg hc]
    exact elemRun_avoid distF districts wl2 u h2

/-- A dispatched message is addressed to the fetched row it came from. -/
theorem mkNotif_chat_id (distF : ℚ → ℚ → ℚ → ℚ → ℚ)
    (districts : List District) (u : User) (m : Notif)
    (h : mkNotif distF districts u = some m) : m.chat_id = u.chat_id := by
  rcases hne : nearestAlert distF districts u.lat u.lon with _ | n
  · simp [mkNotif, hne] at h
  · simp only [mkNotif, hne] at h
    by_cases hc : alertCond u n = true
    · rw [if_pos hc] at h
      cases h
      rfl
    · rw [if_neg hc] at h
      exact Option.noConfusion h

/-- Content of the message a fetched row gives rise to, given its resolved
district: it exists exactly under the dispatch condition and then equals
`mkMsg`. -/
theorem mkNotif_eq (distF : ℚ → ℚ → ℚ → ℚ → ℚ)
    (districts : List District) (u : User) (n : District) (m : Notif)
    (hres : nearestAlert distF districts u.lat u.lon = some n)
    (h : mkNotif distF districts u = some m) :
    m = mkMsg u n ∧ alertCond u n = true := by
  simp only [mkNotif, hres] at h
  by_cases hc : alertCond u n = true
  · rw [if_pos hc] at h
    cases h
    exact ⟨rfl, hc⟩
  · rw [if_neg hc] at h
    exact Option.noConfusion h

/-- Existence of the message under the dispatch condition. -/
theorem mkNotif_of_cond (distF : ℚ → ℚ → ℚ → ℚ → ℚ)
    (districts : List District) (u : User) (n : District)
    (hres : nearestAlert distF districts u.lat u.lon = some n)
    (hc : alertCond u n = true) :
    mkNotif distF districts u = some (mkMsg u n) := by
  simp [mkNotif, hres, hc]

/-- C1: for an active subscriber in a completed `check_alerts` cycle, a
message is dispatched to it if and only if the resolved nearest district is
in a dust-storm condition or its level differs from the stored
`last_level`; the dispatched message carries the resolved level, and after
dispatch the subscriber's row stores the resolved level (all other fields
unchanged); when the level is unchanged and no dust storm holds, the
subscriber receives zero messages and its row is untouched. Since a dust
storm makes the condition true regardless of the stored level, it
re-notifies on every cycle. -/
theorem C1_dispatch_iff (distF : ℚ → ℚ → ℚ → ℚ → ℚ)
    (districts : List District) (table : List User) (u : User) (n : District)
    (hmem : u ∈ table) (hact : u.active = true)
    (hnodup : (table.map (fun v => v.chat_id)).Nodup)
    (hall : ∀ v ∈ table.filter (fun w => w.active),
        (nearestAlert distF districts v.lat v.lon).isSome = true)
    (hres : nearestAlert distF districts u.lat u.lon = some n) :
    ∃ notifs table2,
      check_alerts distF districts table = .ok (notifs, table2) ∧
      ((∃ m ∈ notifs, m.chat_id = u.chat_id) ↔
        (is_dust_storm n.pm10_now n.aqi = true ∨ some n.level ≠ u.last_level)) ∧
      (∀ m ∈ notifs, m.chat_id = u.chat_id → m = mkMsg u n) ∧
      ((is_dust_storm n.pm10_now n.aqi = true ∨ some n.level ≠ u.last_level) →
        ({ u with last_level := some n.level } : User) ∈ table2 ∧
        ∀ w ∈ table2, w.chat_id = u.chat_id →
          w = { u with last_level := some n.level }) ∧
      (¬ (is_dust_storm n.pm10_now n.aqi = true ∨ some n.level ≠ u.last_level) →
        u ∈ table2 ∧ (∀ m ∈ notifs, m.chat_id ≠ u.chat_id) ∧
        ∀ w ∈ table2, w.chat_id = u.chat_id → w = u) := by
  have huwl : u ∈ table.filter (fun w => w.active) :=
    List.mem_filter.mpr ⟨hmem, by simp [hact]⟩
  have hwlsub : (table.filter (fun w => w.active)).Sublist table :=
    List.filter_sublist table
  have hwlnodup :
      ((table.filter (fun w => w.active)).map (fun v => v.chat_id)).Nodup :=
    List.Nodup.sublist (hwlsub.map _) hnodup
  obtain ⟨wl1, wl2, hsplit⟩ := List.append_of_mem huwl
  have hnodup2 : ((wl1 ++ u :: wl2).map (fun v => v.chat_id)).Nodup :=
    hsplit ▸ hwlnodup
  rw [List.map_append, List.map_cons] at hnodup2
  rcases List.nodup_append.mp hnodup2 with ⟨hn1, hn2, hdisj⟩
  have hu2 : u.chat_id ∉ wl2.map (fun v => v.chat_id) :=
    (List.nodup_cons.mp hn2).1
  have hu1 : u.chat_id ∉ wl1.map (fun v => v.chat_id) :=
    fun hmem1 => hdisj hmem1 (List.mem_cons_self _ _)
  have h1 : ∀ v ∈ wl1, v.chat_id ≠ u.chat_id := by
    intro v hv hva
    exact hu1 (hva ▸ List.mem_map_of_mem _ hv)
  have h2 : ∀ v ∈ wl2, v.chat_id ≠ u.chat_id := by
    intro v hv hva
    exact hu2 (hva ▸ List.mem_map_of_mem _ hv)
  have hrun : check_alerts distF districts table =
      .ok ((table.filter (fun w => w.active)).filterMap
             (mkNotif distF districts),
           table.map (elemRun distF districts
             (table.filter (fun w => w.active)))) := by
    unfold check_alerts
    rw [checkAlertsGo_ok distF districts _ [] table hall,
      foldl_stepTable_eq_map]
    simp
  refine ⟨_, _, hrun, ?_, ?_, ?_, ?_⟩
  · constructor
    · rintro ⟨m, hm, hmc⟩
      obtain ⟨v, hv, hveq⟩ := List.mem_filterMap.mp hm
      have hvchat : m.chat_id = v.chat_id :=
        mkNotif_chat_id distF districts v m hveq
      have hvu : v = u := List.inj_on_of_nodup_map hwlnodup hv huwl
        (by rw [← hvchat]; exact hmc)
      rw [hvu] at hveq
      exact (alertCond_iff u n).mp
        (mkNotif_eq distF districts u n m hres hveq).2
    · intro hcond
      have hc : alertCond u n = true := (alertCond_iff u n).mpr hcond
      exact ⟨mkMsg u n,
        List.mem_filterMap.mpr
          ⟨u, huwl, mkNotif_of_cond distF districts u n hres hc⟩, rfl⟩
  · intro m hm hmc
    obtain ⟨v, hv, hveq⟩ := List.mem_filterMap.mp hm
    have hvchat : m.chat_id = v.chat_id :=
      mkNotif_chat_id distF districts v m hveq
    have hvu : v = u := List.inj_on_of_nodup_map hwlnodup hv huwl
      (by rw [← hvchat]; exact hmc)
    rw [hvu] at hveq
    exact (mkNotif_eq distF districts u n m hres hveq).1
  · intro hcond
    have hc : alertCond u n = true := (alertCond_iff u n).mpr hcond
    have hupd : elemRun distF districts (table.filter (fun w => w.active)) u =
        { u with last_level := some n.level } := by
      rw [hsplit, elemRun_update distF districts wl1 wl2 u n h1 h2 hres,
        if_pos hc]
    constructor
    · have hmm := List.mem_map_of_mem
        (elemRun distF districts (table.filter (fun w => w.active))) hmem
      rw [hupd] at hmm
      exact hmm
    · intro w hw hwc
      obtain ⟨w0, hw0, hw0eq⟩ := List.mem_map.mp hw
      have hchat : w.chat_id = w0.chat_id := by
        rw [← hw0eq, elemRun_chat_id]
      have hw0u : w0 = u := List.inj_on_of_nodup_map hnodup hw0 hmem
        (by rw [← hchat]; exact hwc)
      rw [hw0u] at hw0eq
      rw [← hw0eq, hupd]
  · intro hcond
    have hc : ¬ alertCond u n = true :=
      fun hx => hcond ((alertCond_iff u n).mp hx)
    have hupd : elemRun distF districts (table.filter (fun w => w.active)) u =
        u := by
      rw [hsplit, elemRun_update distF districts wl1 wl2 u n h1 h2 hres,
        if_neg hc]
    refine ⟨?_, ?_, ?_⟩
    · have hmm := List.mem_map_of_mem
        (elemRun distF districts (table.filter (fun w => w.active))) hmem
      rw [hupd] at hmm
      exact hmm
    · intro m hm hmc
      obtain ⟨v, hv, hveq⟩ := List.mem_filterMap.mp hm
      have hvchat : m.chat_id = v.chat_id :=
        mkNotif_chat_id distF districts v m hveq
      have hvu : v = u := List.inj_on_of_nodup_map hwlnodup hv huwl
        (by rw [← hvchat]; exact hmc)
      rw [hvu] at hveq
      exact hcond ((alertCond_iff u n).mp
        (mkNotif_eq distF districts u n m hres hveq).2)
    · intro w hw hwc
      obtain ⟨w0, hw0, hw0eq⟩ := List.mem_map.mp hw
      have hchat : w.chat_id = w0.chat_id := by
        rw [← hw0eq, elemRun_chat_id]
      have hw0u : w0 = u := List.inj_on_of_nodup_map hnodup hw0 hmem
        (by rw [← hchat]; exact hwc)
      rw [hw0u] at hw0eq
      rw [← hw0eq, hupd]

/-- Witness for C1 on a concrete cycle: one active subscriber whose stored
level `good` differs from the resolved district's `moderate`. -/
theorem C1_witness :
    (({ chat_id := 5, lat := 33, lon := 44, district_id := some "bgd",
        last_level := some AlertLevel.good, lang := Lang.ar,
        active := true } : User) ∈
      [({ chat_id := 5, lat := 33, lon := 44, district_id := some "bgd",
          last_level := some AlertLevel.good, lang := Lang.ar,
          active := true } : User)] ∧
     ({ chat_id := 5, lat := 33, lon := 44, district_id := some "bgd",
        last_level := some AlertLevel.good, lang := Lang.ar,
        active := true } : User).active = true ∧
     (([({ chat_id := 5, lat := 33, lon := 44, district_id := some "bgd",
           last_level := some AlertLevel.good, lang := Lang.ar,
           active := true } : User)]).map (fun v => v.chat_id)).Nodup ∧
     (∀ v ∈ ([({ chat_id := 5, lat := 33, lon := 44,
                 district_id := some "bgd",
                 last_level := some AlertLevel.good, lang := Lang.ar,
                 active := true } : User)]).filter (fun w => w.active),
        (nearestAlert (fun _ _ _ _ => 2)
          [({ district_id := "bgd", district_name := "Baghdad",
              latitude := 33, longitude := 44,
              level := AlertLevel.moderate, aqi := 80,
              pm10_now := 70 } : District)] v.lat v.lon).isSome = true) ∧
     nearestAlert (fun _ _ _ _ => 2)
       [({ district_id := "bgd", district_name := "Baghdad",
           latitude := 33, longitude := 44, level := AlertLevel.moderate,
           aqi := 80, pm10_now := 70 } : District)]
       ({ chat_id := 5, lat := 33, lon := 44, district_id := some "bgd",
          last_level := some AlertLevel.good, lang := Lang.ar,
          active := true } : User).lat
       ({ chat_id := 5, lat := 33, lon := 44, district_id := some "bgd",
          last_level := some AlertLevel.good, lang := Lang.ar,
          active := true } : User).lon =
       some ({ district_id := "bgd", district_name := "Baghdad",
               latitude := 33, longitude := 44,
               level := AlertLevel.moderate, aqi := 80,
               pm10_now := 70 } : District)) ∧
    (∃ notifs table2,
      check_alerts (fun _ _ _ _ => 2)
        [({ district_id := "bgd", district_name := "Baghdad",
            latitude := 33, longitude := 44, level := AlertLevel.moderate,
            aqi := 80, pm10_now := 70 } : District)]
        [({ chat_id := 5, lat := 33, lon := 44, district_id := some "bgd",
            last_level := some AlertLevel.good, lang := Lang.ar,
            active := true } : User)] = .ok (notifs, table2) ∧
      ((∃ m ∈ notifs, m.chat_id =
          ({ chat_id := 5, lat := 33, lon := 44, district_id := some "bgd",
             last_level := some AlertLevel.good, lang := Lang.ar,
             active := true } : User).chat_id) ↔
        (is_dust_storm
            ({ district_id := "bgd", district_name := "Baghdad",
               latitude := 33, longitude := 44,
               level := AlertLevel.moderate, aqi := 80,
               pm10_now := 70 } : District).pm10_now
            ({ district_id := "bgd", district_name := "Baghdad",
               latitude := 33, longitude := 44,
               level := AlertLevel.moderate, aqi := 80,
               pm10_now := 70 } : District).aqi = true ∨
          some ({ district_id := "bgd", district_name := "Baghdad",
                  latitude := 33, longitude := 44,
                  level := AlertLevel.moderate, aqi := 80,
                  pm10_now := 70 } : District).level ≠
            ({ chat_id := 5, lat := 33, lon := 44,
               district_id := some "bgd",
               last_level := some AlertLevel.good, lang := Lang.ar,
               active := true } : User).last_level)) ∧
      (∀ m ∈ notifs, m.chat_id =
          ({ chat_id := 5, lat := 33, lon := 44, district_id := some "bgd",
             last_level := some AlertLevel.good, lang := Lang.ar,
             active := true } : User).chat_id →
        m = mkMsg
          ({ chat_id := 5, lat := 33, lon := 44, district_id := some "bgd",
             last_level := some AlertLevel.good, lang := Lang.ar,
             active := true } : User)
          ({ district_id := "bgd", district_name := "Baghdad",
             latitude := 33, longitude := 44, level := AlertLevel.moderate,
             aqi := 80, pm10_now := 70 } : District)) ∧
      ((is_dust_storm
            ({ district_id := "bgd", district_name := "Baghdad",
               latitude := 33, longitude := 44,
               level := AlertLevel.moderate, aqi := 80,
               pm10_now := 70 } : District).pm10_now
            ({ district_id := "bgd", district_name := "Baghdad",
               latitude := 33, longitude := 44,
               level := AlertLevel.moderate, aqi := 80,
               pm10_now := 70 } : District).aqi = true ∨
          some ({ district_id := "bgd", district_name := "Baghdad",
                  latitude := 33, longitude := 44,
                  level := AlertLevel.moderate, aqi := 80,
                  pm10_now := 70 } : District).level ≠
            ({ chat_id := 5, lat := 33, lon := 44,
               district_id := some "bgd",
               last_level := some AlertLevel.good, lang := Lang.ar,
               active := true } : User).last_level) →
        ({ ({ chat_id := 5, lat := 33, lon := 44,
              district_id := some "bgd",
              last_level := some AlertLevel.good, lang := Lang.ar,
              active := true } : User) with
            last_level := some
              ({ district_id := "bgd", district_name := "Baghdad",
                 latitude := 33, longitude := 44,
                 level := AlertLevel.moderate, aqi := 80,
                 pm10_now := 70 } : District).level } : User) ∈ table2 ∧
        ∀ w ∈ table2, w.chat_id =
            ({ chat_id := 5, lat := 33, lon := 44,
               district_id := some "bgd",
               last_level := some AlertLevel.good, lang := Lang.ar,
               active := true } : User).chat_id →
          w = { ({ chat_id := 5, lat := 33, lon := 44,
                   district_id := some "bgd",
                   last_level := some AlertLevel.good, lang := Lang.ar,
                   active := true } : User) with
                last_level := some
                  ({ district_id := "bgd", district_name := "Baghdad",
                     latitude := 33, longitude := 44,
                     level := AlertLevel.moderate, aqi := 80,
                     pm10_now := 70 } : District).level }) ∧
      (¬ (is_dust_storm
            ({ district_id := "bgd", district_name := "Baghdad",
               latitude := 33, longitude := 44,
               level := AlertLevel.moderate, aqi := 80,
               pm10_now := 70 } : District).pm10_now
            ({ district_id := "bgd", district_name := "Baghdad",
               latitude := 33, longitude := 44,
               level := AlertLevel.moderate, aqi := 80,
               pm10_now := 70 } : District).aqi = true ∨
          some ({ district_id := "bgd", district_name := "Baghdad",
                  latitude := 33, longitude := 44,
                  level := AlertLevel.moderate, aqi := 80,
                  pm10_now := 70 } : District).level ≠
            ({ chat_id := 5, lat := 33, lon := 44,
               district_id := some "bgd",
               last_level := some AlertLevel.good, lang := Lang.ar,
               active := true } : User).last_level) →
        ({ chat_id := 5, lat := 33, lon := 44, district_id := some "bgd",
           last_level := some AlertLevel.good, lang := Lang.ar,
           active := true } : User) ∈ table2 ∧
        (∀ m ∈ notifs, m.chat_id ≠
          ({ chat_id := 5, lat := 33, lon := 44, district_id := some "bgd",
             last_level := some AlertLevel.good, lang := Lang.ar,
             active := true } : User).chat_id) ∧
        ∀ w ∈ table2, w.chat_id =
            ({ chat_id := 5, lat := 33, lon := 44,
               district_id := some "bgd",
               last_level := some AlertLevel.good, lang := Lang.ar,
               active := true } : User).chat_id →
          w = ({ chat_id := 5, lat := 33, lon := 44,
                 district_id := some "bgd",
                 last_level := some AlertLevel.good, lang := Lang.ar,
                 active := true } : User))) :=
  ⟨⟨by decide, by decide, by decide, by decide, by decide⟩,
   C1_dispatch_iff (fun _ _ _ _ => 2)
     [({ district_id := "bgd", district_name := "Baghdad",
         latitude := 33, longitude := 44, level := AlertLevel.moderate,
         aqi := 80, pm10_now := 70 } : District)]
     [({ chat_id := 5, lat := 33, lon := 44, district_id := some "bgd",
         last_level := some AlertLevel.good, lang := Lang.ar,
         active := true } : User)]
     ({ chat_id := 5, lat := 33, lon := 44, district_id := some "bgd",
        last_level := some AlertLevel.good, lang := Lang.ar,
        active := true } : User)
     ({ district_id := "bgd", district_name := "Baghdad",
        latitude := 33, longitude := 44, level := AlertLevel.moderate,
        aqi := 80, pm10_now := 70 } : District)
     (by decide) (by decide) (by decide) (by decide) (by decide)⟩

/-- C10: `handle_location` is an upsert keyed by `chat_id` (when the nearest
district resolves): key-uniqueness of the table is preserved; when the key is
present the row is updated in place (location, nearest district, `active`)
with `last_level` and `lang` kept and no row added; when the key is absent a
single fresh row is appended; and in either case the subscriber's row ends
with `active = true`, so a location share reactivates a stopped subscriber. -/
theorem C10_upsert (distF : ℚ → ℚ → ℚ → ℚ → ℚ) (districts : List District)
    (cid : ℤ) (lat lon : ℚ) (table : List User) (n : District)
    (hnodup : (table.map (fun v => v.chat_id)).Nodup)
    (hres : nearestLoc distF districts lat lon = some n) :
    ((handle_location distF districts cid lat lon table).map
        (fun v => v.chat_id)).Nodup ∧
    ((∃ u ∈ table, u.chat_id = cid) →
      handle_location distF districts cid lat lon table =
        table.map (fun u => if u.chat_id = cid then
          { u with lat := lat, lon := lon,
                   district_id := some n.district_id,
                   active := true } else u)) ∧
    ((∀ u ∈ table, u.chat_id ≠ cid) →
      handle_location distF districts cid lat lon table =
        table ++ [freshUser cid lat lon n.district_id]) ∧
    (∀ u ∈ handle_location distF districts cid lat lon table,
      u.chat_id = cid → u.active = true) := by
  simp only [handle_location, hres, upsertUser]
  by_cases hany : (table.any fun u => u.chat_id = cid) = true
  · rw [if_pos hany]
    have hmapchat : (table.map (fun u => if u.chat_id = cid then
        { u with lat := lat, lon := lon,
                 district_id := some n.district_id,
                 active := true } else u)).map (fun v => v.chat_id) =
        table.map (fun v => v.chat_id) := by
      rw [List.map_map]
      apply List.map_congr_left
      intro a _
      by_cases hc : a.chat_id = cid
      · simp [Function.comp, hc]
      · simp [Function.comp, hc]
    refine ⟨?_, fun _ => rfl, ?_, ?_⟩
    · rw [hmapchat]
      exact hnodup
    · intro hfa
      rw [List.any_eq_true] at hany
      obtain ⟨a, ha, hc⟩ := hany
      exact absurd (by simpa using hc) (hfa a ha)
    · intro v hv hvc
      obtain ⟨w, hw, hweq⟩ := List.mem_map.mp hv
      by_cases hc : w.chat_id = cid
      · simp only [if_pos hc] at hweq
        rw [← hweq]
      · simp only [if_neg hc] at hweq
        rw [← hweq] at hvc
        exact absurd hvc hc
  · rw [if_neg hany]
    have hfa : ∀ u ∈ table, u.chat_id ≠ cid := by
      intro a ha hc
      exact hany (List.any_eq_true.mpr ⟨a, ha, by simp [hc]⟩)
    refine ⟨?_, ?_, fun _ => rfl, ?_⟩
    · rw [List.map_append]
      apply List.Nodup.append hnodup (by simp)
      intro a ha hb
      simp [freshUser] at hb
      obtain ⟨w, hw, hweq⟩ := List.mem_map.mp ha
      exact hfa w hw (hweq.trans hb)
    · intro hex
      obtain ⟨a, ha, hc⟩ := hex
      exact absurd hc (hfa a ha)
    · intro v hv hvc
      rcases List.mem_append.mp hv with h | h
      · exact absurd hvc (hfa v h)
      · have hvf : v = freshUser cid lat lon n.district_id := by
          simpa using h
        rw [hvf]
        rfl

/-- Witness for C10: a deactivated subscriber shares a location again; the
row is updated in place and reactivated. -/
theorem C10_witness :
    ((([({ chat_id := 9, lat := 30, lon := 47, district_id := none,
           last_level := some AlertLevel.unhealthy, lang := Lang.en,
           active := false } : User)]).map (fun v => v.chat_id)).Nodup ∧
     nearestLoc (fun _ _ _ _ => 3)
       [({ district_id := "bsr", district_name := "Basra", latitude := 30,
           longitude := 47, level := AlertLevel.good, aqi := 40,
           pm10_now := 30 } : District)] 30 47 =
       some ({ district_id := "bsr", district_name := "Basra",
               latitude := 30, longitude := 47, level := AlertLevel.good,
               aqi := 40, pm10_now := 30 } : District)) ∧
    (((handle_location (fun _ _ _ _ => 3)
        [({ district_id := "bsr", district_name := "Basra", latitude := 30,
            longitude := 47, level := AlertLevel.good, aqi := 40,
            pm10_now := 30 } : District)] 9 30 47
        [({ chat_id := 9, lat := 30, lon := 47, district_id := none,
            last_level := some AlertLevel.unhealthy, lang := Lang.en,
            active := false } : User)]).map (fun v => v.chat_id)).Nodup ∧
     ((∃ u ∈ [({ chat_id := 9, lat := 30, lon := 47, district_id := none,
                 last_level := some AlertLevel.unhealthy, lang := Lang.en,
                 active := false } : User)], u.chat_id = 9) →
       handle_location (fun _ _ _ _ => 3)
         [({ district_id := "bsr", district_name := "Basra", latitude := 30,
             longitude := 47, level := AlertLevel.good, aqi := 40,
             pm10_now := 30 } : District)] 9 30 47
         [({ chat_id := 9, lat := 30, lon := 47, district_id := none,
             last_level := some AlertLevel.unhealthy, lang := Lang.en,
             active := false } : User)] =
         ([({ chat_id := 9, lat := 30, lon := 47, district_id := none,
              last_level := some AlertLevel.unhealthy, lang := Lang.en,
              active := false } : User)]).map (fun u =>
           if u.chat_id = 9 then
             { u with lat := 30, lon := 47,
                      district_id := some "bsr", active := true }
           else u)) ∧
     ((∀ u ∈ [({ chat_id := 9, lat := 30, lon := 47, district_id := none,
                 last_level := some AlertLevel.unhealthy, lang := Lang.en,
                 active := false } : User)], u.chat_id ≠ 9) →
       handle_location (fun _ _ _ _ => 3)
         [({ district_id := "bsr", district_name := "Basra", latitude := 30,
             longitude := 47, level := AlertLevel.good, aqi := 40,
             pm10_now := 30 } : District)] 9 30 47
         [({ chat_id := 9, lat := 30, lon := 47, district_id := none,
             last_level := some AlertLevel.unhealthy, lang := Lang.en,
             active := false } : User)] =
         [({ chat_id := 9, lat := 30, lon := 47, district_id := none,
             last_level := some AlertLevel.unhealthy, lang := Lang.en,
             active := false } : User)] ++
           [freshUser 9 30 47 "bsr"]) ∧
     (∀ u ∈ handle_location (fun _ _ _ _ => 3)
         [({ district_id := "bsr", district_name := "Basra", latitude := 30,
             longitude := 47, level := AlertLevel.good, aqi := 40,
             pm10_now := 30 } : District)] 9 30 47
         [({ chat_id := 9, lat := 30, lon := 47, district_id := none,
             last_level := some AlertLevel.unhealthy, lang := Lang.en,
             active := false } : User)],
       u.chat_id = 9 → u.active = true)) :=
  ⟨⟨by decide, by decide⟩,
   C10_upsert (fun _ _ _ _ => 3)
     [({ district_id := "bsr", district_name := "Basra", latitude := 30,
         longitude := 47, level := AlertLevel.good, aqi := 40,
         pm10_now := 30 } : District)] 9 30 47
     [({ chat_id := 9, lat := 30, lon := 47, district_id := none,
         last_level := some AlertLevel.unhealthy, lang := Lang.en,
         active := false } : User)]
     ({ district_id := "bsr", district_name := "Basra", latitude := 30,
        longitude := 47, level := AlertLevel.good, aqi := 40,
        pm10_now := 30 } : District)
     (by decide) (by decide)⟩

end IraqAQ
